import Mathlib

/-!
Shallow embedding of the HTTP routing core of the repository: the route
matcher (`source/common/router/config_impl.h`) and the dynamic
route-configuration provider (RDS) with its admin endpoint, whose
behavior is pinned down by `test/common/router/rds_impl_test.cc`.
Only the header of `config_impl` is present in the tree, so function
bodies that live in the missing `.cc` files are modelled from the
specification text; such definitions carry a doc comment starting with
`Modelled from the spec:`.  Inline bodies that do appear in the header
(`NullConfigImpl`, `WeightedClusterEntry::clusterWeight`,
`SslRedirectRoute`) are translated directly from that source.
-/

namespace Router

/-- Headers of a request.  `Http::HeaderMap` lookups return the first
entry with the given (lower-case) name; we model a header map as an
association list. -/
abbrev Headers := List (String × String)

/-- First value held under `name`, as `HeaderMap::get` returns the first
matching entry (or nullptr). -/
def getHeader (h : Headers) (name : String) : Option String :=
  (List.find? (fun p => p.1 = name) h).map (fun p => p.2)

/-- Modelled from the spec: the `:authority` header's host portion with
the port stripped (everything before a `:`). -/
def hostFromAuthority (authority : String) : String :=
  ⟨authority.data.takeWhile (fun c => !(c == ':'))⟩

/-- Modelled from the spec: the path portion of `:path` before a `?` or
`#` delimiter (query/fragment are ignored for exact-path and regex
matching). -/
def pathPortion (p : String) : String :=
  ⟨p.data.takeWhile (fun c => !(c == '?' || c == '#'))⟩

/-- The `Runtime` collaborator: a process-wide keyed integer store.  A
key either has a runtime-supplied value or is absent. -/
abbrev Runtime := String → Option Nat

/-- `Runtime::Snapshot::getInteger(key, default)`: the runtime value for
`key`, or `default` when the key is absent. -/
def getInteger (rt : Runtime) (key : String) (default : Nat) : Nat :=
  (rt key).getD default

/-- One weighted cluster: cluster name, runtime key and base weight
(`WeightedClusterEntry` fields in `config_impl.h`). -/
structure WeightedClusterEntry where
  clusterName : String
  runtimeKey : String
  weight : Nat
  deriving Repr, DecidableEq

/-- `WeightedClusterEntry::clusterWeight` from `config_impl.h` (inline
in the header): `loader_.snapshot().getInteger(runtime_key_,
cluster_weight_)`.  Note: the header body applies no clamping. -/
def clusterWeight (rt : Runtime) (e : WeightedClusterEntry) : Nat :=
  getInteger rt e.runtimeKey e.weight

/-- Modelled from the spec: `MAX_CLUSTER_WEIGHT` is only declared in the
header; its value is defined in the missing `.cc`.  The spec's weighted
examples and the declared-total invariant use 100. -/
def MAX_CLUSTER_WEIGHT : Nat := 100

/-- Modelled from the spec: total weight of a weighted-cluster set is
the sum of the entries' effective weights, read at selection time. -/
def totalClusterWeight (rt : Runtime) (entries : List WeightedClusterEntry) : Nat :=
  (entries.map (clusterWeight rt)).sum

/-- Modelled from the spec: scan the entries in declared order,
subtracting each effective weight from the remainder; the first entry
that makes the remainder negative is selected. -/
def pickWeighted (rt : Runtime) (pick : Int) :
    List WeightedClusterEntry → Option WeightedClusterEntry
  | [] => none
  | e :: rest =>
      if pick - (clusterWeight rt e : Int) < 0 then some e
      else pickWeighted rt (pick - (clusterWeight rt e : Int)) rest

/-- Modelled from the spec: weighted-cluster selection.  Compute
`total = sum(effective_weight)`, draw `pick = random_value % total`, and
scan the list subtracting weights until the remainder goes negative. -/
def selectWeighted (rt : Runtime) (entries : List WeightedClusterEntry)
    (random_value : Nat) : Option WeightedClusterEntry :=
  pickWeighted rt ((random_value % totalClusterWeight rt entries : Nat) : Int) entries

/-- Path-match kind of a route entry (`PrefixRouteEntryImpl`,
`PathRouteEntryImpl`, `RegexRouteEntryImpl`); the compiled regex is
embedded as its matching function, built once at snapshot
construction. -/
inductive PathMatchKind where
  | prefixPath (p : String)
  | exactPath (p : String)
  | regexPath (re : String → Bool)

/-- One header matcher (`ConfigUtility::HeaderData`): name plus an
exact value, a regex, or bare presence. -/
inductive HeaderMatchKind where
  | exactValue (v : String)
  | regexValue (re : String → Bool)
  | present

/-- A declared header matcher on a route. -/
structure HeaderData where
  name : String
  kind : HeaderMatchKind

/-- `RouteEntryImplBase::RuntimeData`: runtime fraction key and
default. -/
structure RuntimeData where
  key : String
  default : Nat

/-- The action of a route: exactly one of cluster name, cluster header
name, weighted-cluster set, or redirect (spec invariant: exactly one
action set), modelled as a tagged variant. -/
inductive RouteAction where
  | cluster (name : String)
  | clusterHeader (headerName : String)
  | weightedClusters (entries : List WeightedClusterEntry)
  | redirect (hostRedirect pathRedirect : String)

/-- A route entry: case-sensitivity flag, path-match kind, declared
header matchers, optional runtime fraction, and the action
(`RouteEntryImplBase` and its subclasses). -/
structure RouteEntry where
  caseSensitive : Bool := true
  pathSpec : PathMatchKind
  configHeaders : List HeaderData := []
  runtime : Option RuntimeData := none
  action : RouteAction

/-- Result of routing: the synthetic SSL-redirect route, a
redirect-carrying route entry, or a route naming a cluster
(`Route` with its `redirectEntry`/`routeEntry` accessors). -/
inductive RouteResult where
  | sslRedirect
  | redirectRoute (hostRedirect pathRedirect : String)
  | clusterRoute (clusterName : String)
  deriving Repr, DecidableEq

/-- `SslRedirectRoute::redirectEntry` returns `&SSL_REDIRECTOR`
(non-null) and `RouteEntryImplBase` redirects expose themselves; a
cluster route has no redirect entry. -/
def RouteResult.redirectEntryIsNull : RouteResult → Bool
  | .sslRedirect => false
  | .redirectRoute _ _ => false
  | .clusterRoute _ => true

/-- `SslRedirectRoute::routeEntry` returns `nullptr`; only cluster
routes expose a route entry. -/
def RouteResult.routeEntryIsNull : RouteResult → Bool
  | .sslRedirect => true
  | .redirectRoute _ _ => true
  | .clusterRoute _ => false

/-- Modelled from the spec: `SslRedirector::newPath` rewrites the scheme
to `https` while preserving the request's host and path. -/
def sslRedirectorNewPath (h : Headers) : String :=
  "https://" ++ ((getHeader h ":authority").getD "") ++ ((getHeader h ":path").getD "")

/-- Modelled from the spec: whether one header matcher is satisfied by
the request headers: presence, exact value, or regex on the value. -/
def headerMatches (hd : HeaderData) (h : Headers) : Bool :=
  match getHeader h hd.name with
  | none => false
  | some v =>
      match hd.kind with
      | .present => true
      | .exactValue w => v == w
      | .regexValue re => re v

/-- Modelled from the spec: the runtime gate.  When a runtime fraction
`(key, default)` is present the route only matches if the
runtime-sourced integer keyed by `key` (defaulting to `default`)
exceeds `random_value % 100`. -/
def runtimeGate (rt : Runtime) (runtime : Option RuntimeData) (random_value : Nat) : Bool :=
  match runtime with
  | none => true
  | some rd => random_value % 100 < getInteger rt rd.key rd.default

/-- Case-folded comparison used by the case-insensitive path matches. -/
def foldCase (cs : Bool) (s : String) : String :=
  if cs then s else ⟨s.data.map Char.toLower⟩

/-- Modelled from the spec: path-kind match.  A prefix entry requires
the request path to start with `p` (per the case-sensitivity flag); an
exact entry requires equality with the path portion before `?`/`#`; a
regex entry requires the compiled regex to accept that portion. -/
def pathKindMatch (cs : Bool) (spec : PathMatchKind) (path : String) : Bool :=
  match spec with
  | .prefixPath p => (foldCase cs p).data.isPrefixOf (foldCase cs path).data
  | .exactPath p => foldCase cs (pathPortion path) == foldCase cs p
  | .regexPath re => re (pathPortion path)

/-- Modelled from the spec:
`RouteEntryImplBase::matchRoute(headers, random_value)` — the
non-path part of the predicate: the runtime gate admits the request
and every declared header matcher is satisfied. -/
def matchRoute (rt : Runtime) (r : RouteEntry) (h : Headers) (random_value : Nat) : Bool :=
  runtimeGate rt r.runtime random_value && r.configHeaders.all (fun hd => headerMatches hd h)

/-- Modelled from the spec:
`RouteEntryImplBase::clusterEntry(headers, random_value)` — action
resolution.  A cluster action names its cluster; a cluster-header
action reads the cluster name from the named header at request time
(empty when absent); a redirect action yields a redirect route; a
weighted action selects among the weighted clusters using
`random_value`. -/
def clusterEntry (rt : Runtime) (r : RouteEntry) (h : Headers) (random_value : Nat) :
    RouteResult :=
  match r.action with
  | .cluster name => .clusterRoute name
  | .clusterHeader hn => .clusterRoute ((getHeader h hn).getD "")
  | .redirect hr pr => .redirectRoute hr pr
  | .weightedClusters entries =>
      .clusterRoute (((selectWeighted rt entries random_value).map
        (fun e => e.clusterName)).getD "")

/-- Modelled from the spec: `Matchable::matches(headers, random_value)`
for a route entry (named `routeMatches` here because `matches` is a
reserved word): non-null exactly when the path-kind match succeeds,
every header matcher is satisfied and the runtime gate admits the
request; the result is the resolved action. -/
def routeMatches (rt : Runtime) (r : RouteEntry) (h : Headers) (random_value : Nat) :
    Option RouteResult :=
  if matchRoute rt r h random_value
      && pathKindMatch r.caseSensitive r.pathSpec ((getHeader h ":path").getD "") then
    some (clusterEntry rt r h random_value)
  else
    none

/-- `VirtualHostImpl::SslRequirements` from `config_impl.h`. -/
inductive SslRequirements where
  | NONE
  | EXTERNAL_ONLY
  | ALL
  deriving Repr, DecidableEq

/-- A virtual host: name, domain patterns (exact host, wildcard
`*.suffix`, or catch-all `*`), SSL requirement and the ordered route
list (`VirtualHostImpl`). -/
structure VirtualHostDef where
  name : String
  domains : List String
  sslRequirements : SslRequirements := .NONE
  routes : List RouteEntry

/-- Modelled from the spec: the SSL gate condition.  The request is
redirected when the virtual host requires SSL for it and the request is
plaintext (forwarded-proto is not `https`); `EXTERNAL_ONLY` exempts
traffic carrying the internal trust marker header
(`x-envoy-internal`). -/
def sslRedirectNeeded (vh : VirtualHostDef) (h : Headers) : Bool :=
  match vh.sslRequirements with
  | .NONE => false
  | .ALL => !((getHeader h "x-forwarded-proto").getD "" == "https")
  | .EXTERNAL_ONLY =>
      !((getHeader h "x-forwarded-proto").getD "" == "https")
        && !(getHeader h "x-envoy-internal").isSome

/-- Modelled from the spec: first route in declared order whose
`matches` result is non-null wins. -/
def firstMatch (rt : Runtime) (routes : List RouteEntry) (h : Headers)
    (random_value : Nat) : Option RouteResult :=
  match routes with
  | [] => none
  | r :: rest =>
      match routeMatches rt r h random_value with
      | some res => some res
      | none => firstMatch rt rest h random_value

/-- Modelled from the spec:
`VirtualHostImpl::getRouteFromEntries(headers, random_value)` — apply
the SSL gate first (returning the shared synthetic
`SSL_REDIRECT_ROUTE`), then iterate the routes in declared order and
return the first non-null match. -/
def getRouteFromEntries (rt : Runtime) (vh : VirtualHostDef) (h : Headers)
    (random_value : Nat) : Option RouteResult :=
  if sslRedirectNeeded vh h then some .sslRedirect
  else firstMatch rt vh.routes h random_value

/-- Whether a domain pattern is a wildcard entry `*.suffix` (the
catch-all `*` is kept separately as the default virtual host). -/
def isWildcardDomain (d : String) : Bool :=
  d.length > 1 && d.data.headD ' ' == '*'

/-- Suffix text of a wildcard domain pattern: everything after the
leading `*` (so `*.b.c` keeps the suffix `.b.c`). -/
def wildcardSuffix (d : String) : String :=
  ⟨d.data.drop 1⟩

/-- Whether `suff` is a strict suffix of `host`: `host` ends with
`suff` and is strictly longer. -/
def strictSuffixOf (suff host : String) : Bool :=
  suff.data.isSuffixOf host.data && suff.length < host.length

/-- Modelled from the spec: the wildcard candidates for a host — every
`(suffix, virtual host)` pair whose wildcard domain suffix is a strict
suffix of the host. -/
def wildcardCandidates (vhs : List VirtualHostDef) (host : String) :
    List (String × VirtualHostDef) :=
  vhs.flatMap (fun vh =>
    (vh.domains.filter
        (fun d => isWildcardDomain d && strictSuffixOf (wildcardSuffix d) host)).map
      (fun d => (wildcardSuffix d, vh)))

/-- Modelled from the spec:
`RouteMatcher::findWildcardVirtualHost(host)` — among wildcard entries
whose suffix is a strict suffix of the host, pick the one with the
longest suffix (the source keeps a map keyed by suffix length in
descending order; ties cannot occur by invariant). -/
def findWildcardVirtualHost (vhs : List VirtualHostDef) (host : String) :
    Option VirtualHostDef :=
  ((wildcardCandidates vhs host).foldl
    (fun best c =>
      match best with
      | none => some c
      | some b => if c.1.length > b.1.length then some c else some b)
    none).map (fun p => p.2)

/-- Exact-domain lookup: the first virtual host declaring the host
verbatim among its domains (exact domains are unique across the table
by invariant). -/
def findExactVirtualHost (vhs : List VirtualHostDef) (host : String) :
    Option VirtualHostDef :=
  vhs.find? (fun vh => vh.domains.contains host)

/-- The catch-all virtual host: the one declaring domain `*`, if any
(at most one by invariant). -/
def defaultVirtualHost (vhs : List VirtualHostDef) : Option VirtualHostDef :=
  vhs.find? (fun vh => vh.domains.contains "*")

/-- Modelled from the spec: `RouteMatcher::findVirtualHost(headers)` —
the `:authority` host (port stripped) is looked up by exact match
first, then by longest wildcard suffix, then the catch-all virtual
host. -/
def findVirtualHost (vhs : List VirtualHostDef) (h : Headers) :
    Option VirtualHostDef :=
  let host := hostFromAuthority ((getHeader h ":authority").getD "")
  match findExactVirtualHost vhs host with
  | some vh => some vh
  | none =>
      match findWildcardVirtualHost vhs host with
      | some vh => some vh
      | none => defaultVirtualHost vhs

/-- Modelled from the spec: `RouteMatcher::route(headers,
random_value)` — resolve the virtual host, then select the route inside
it; `None` when no virtual host matches. -/
def routeMatcherRoute (rt : Runtime) (vhs : List VirtualHostDef) (h : Headers)
    (random_value : Nat) : Option RouteResult :=
  match findVirtualHost vhs h with
  | some vh => getRouteFromEntries rt vh h random_value
  | none => none

/-- A route configuration (`envoy::api::v2::RouteConfiguration` as the
matcher consumes it): name, virtual hosts and the header-mutation
lists. -/
structure RouteConfiguration where
  name : String := ""
  virtualHosts : List VirtualHostDef := []
  internalOnlyHeaders : List String := []
  responseHeadersToAdd : List (String × String) := []
  responseHeadersToRemove : List String := []

/-- Modelled from the spec: a matcher uses runtime when some route
carries a runtime fraction. -/
def configUsesRuntime (cfg : RouteConfiguration) : Bool :=
  cfg.virtualHosts.any (fun vh => vh.routes.any (fun r => r.runtime.isSome))

/-- The `Router::Config` interface as a record of its observable
behavior. -/
structure Config where
  route : Headers → Nat → Option RouteResult
  internalOnlyHeaders : List String
  responseHeadersToAdd : List (String × String)
  responseHeadersToRemove : List String
  usesRuntime : Bool

/-- `ConfigImpl` built from a route configuration: routing delegates to
the matcher and the lists come from the configuration. -/
def configImpl (rt : Runtime) (cfg : RouteConfiguration) : Config where
  route := fun h rv => routeMatcherRoute rt cfg.virtualHosts h rv
  internalOnlyHeaders := cfg.internalOnlyHeaders
  responseHeadersToAdd := cfg.responseHeadersToAdd
  responseHeadersToRemove := cfg.responseHeadersToRemove
  usesRuntime := configUsesRuntime cfg

/-- `NullConfigImpl` from `config_impl.h` (all bodies inline in the
header): `route` returns `nullptr`, `usesRuntime` is `false`, and the
three header lists are default-constructed empty. -/
def nullConfig : Config where
  route := fun _ _ => none
  internalOnlyHeaders := []
  responseHeadersToAdd := []
  responseHeadersToRemove := []
  usesRuntime := false

/-- Response bodies delivered by the async HTTP client, as raw bytes. -/
abbrev ResponseBody := List Nat

/-- A parser for response bodies (the JSON/proto loader is an external
collaborator): `none` on parse failure. -/
abbrev BodyParser := ResponseBody → Option RouteConfiguration

/-- The stable 64-bit content-hash collaborator (`HashUtil`). -/
abbrev HashFn := ResponseBody → Nat

/-- State of one dynamic route-configuration provider
(`RdsRouteConfigProviderImpl`): the current content hash (absent before
the first update), the published snapshot (absent means the initial
`NullConfigImpl` is served), the five counters, and the one-shot init
target state.  `readyCalls` counts calls to `init_manager.ready()`. -/
structure RdsState where
  currentHash : Option Nat := none
  snapshot : Option RouteConfiguration := none
  updateAttempt : Nat := 0
  updateSuccess : Nat := 0
  updateFailure : Nat := 0
  updateEmpty : Nat := 0
  configReload : Nat := 0
  initFired : Bool := false
  readyCalls : Nat := 0

/-- Provider state right after construction, before any fetch
completes. -/
def initialRdsState : RdsState := {}

/-- Events delivered to the provider: a fetch completing with a
response body (`onSuccess`), a fetch failing (`onFailure`), and
provider destruction (which cancels any outstanding fetch). -/
inductive RdsEvent where
  | fetchSuccess (body : ResponseBody)
  | fetchFailure
  | destroy
  deriving Repr, DecidableEq

/-- Modelled from the spec: run the provider's one-shot init callback
if it has not run yet (`runInitializeCallback`); this calls
`init_manager.ready()` exactly when the callback had not fired. -/
def fireInit (s : RdsState) : RdsState :=
  if s.initFired then s
  else { s with initFired := true, readyCalls := s.readyCalls + 1 }

/-- Modelled from the spec: the update protocol applied to a terminal
fetch outcome.  On a response: increment `update_attempt`; if the body's
content hash equals the current one, just count an `update_success`; a
new hash that fails to parse counts an `update_failure`; a new hash
that parses installs the snapshot, records the hash and counts
`config_reload` and `update_success` (and `update_empty` when the
configuration has no virtual hosts).  On a fetch failure: count
`update_attempt` and `update_failure`.  Destruction touches no
counter. -/
def applyOutcome (parse : BodyParser) (hashFn : HashFn) (s : RdsState) :
    RdsEvent → RdsState
  | .fetchSuccess body =>
      let s1 := { s with updateAttempt := s.updateAttempt + 1 }
      if some (hashFn body) = s1.currentHash then
        { s1 with updateSuccess := s1.updateSuccess + 1 }
      else
        match parse body with
        | none => { s1 with updateFailure := s1.updateFailure + 1 }
        | some cfg =>
            { s1 with
              updateSuccess := s1.updateSuccess + 1
              configReload := s1.configReload + 1
              currentHash := some (hashFn body)
              snapshot := some cfg
              updateEmpty :=
                if cfg.virtualHosts.isEmpty then s1.updateEmpty + 1 else s1.updateEmpty }
  | .fetchFailure =>
      { s with
        updateAttempt := s.updateAttempt + 1
        updateFailure := s.updateFailure + 1 }
  | .destroy => s

/-- Modelled from the spec (pinned by `rds_impl_test.cc`): one provider
step.  Every terminal event — fetch success (whether or not it parses),
fetch failure, and destruction with a fetch outstanding — runs the
one-shot init callback; the counters and snapshot follow the update
protocol. -/
def rdsStep (parse : BodyParser) (hashFn : HashFn) (s : RdsState) (e : RdsEvent) :
    RdsState :=
  applyOutcome parse hashFn (fireInit s) e

/-- Fold a sequence of provider events over a starting state. -/
def runTrace (parse : BodyParser) (hashFn : HashFn) (s : RdsState) :
    List RdsEvent → RdsState
  | [] => s
  | e :: rest => runTrace parse hashFn (rdsStep parse hashFn s e) rest

/-- Whether an event is a terminal outcome of a fetch (success or
failure), as opposed to provider destruction. -/
def RdsEvent.isFetchOutcome : RdsEvent → Bool
  | .fetchSuccess _ => true
  | .fetchFailure => true
  | .destroy => false

/-- Hex digit characters for the version string. -/
def hexChar (n : Nat) : Char :=
  if n < 10 then Char.ofNat (48 + n) else Char.ofNat (87 + n)

/-- Fixed-width hex rendering (most significant digit first). -/
def hexDigitsAux : Nat → Nat → List Char
  | 0, _ => []
  | fuel + 1, n => hexDigitsAux fuel (n / 16) ++ [hexChar (n % 16)]

/-- 16-digit zero-padded hex of a 64-bit hash. -/
def hex16 (n : Nat) : String :=
  ⟨hexDigitsAux 16 n⟩

/-- Modelled from the spec: `versionInfo()` formats the current content
hash as `hash_<hex16>`, or the empty string before the first update. -/
def versionInfo (s : RdsState) : String :=
  match s.currentHash with
  | none => ""
  | some h => "hash_" ++ hex16 h

/-- Modelled from the spec: `config()` — the published snapshot built
into a `ConfigImpl`, or the `NullConfigImpl` before the first successful
update. -/
def providerConfig (rt : Runtime) (s : RdsState) : Config :=
  match s.snapshot with
  | none => nullConfig
  | some cfg => configImpl rt cfg

/-- What the admin handler shows for one provider: version string,
route-config name, discovery cluster name and the serialized route
table. -/
structure ProviderInfo where
  versionInfoStr : String
  routeConfigName : String
  clusterName : String
  routeTableDump : String
  deriving Repr, DecidableEq

/-- Body of an admin `/routes` response: either the per-provider dump
objects (each holding `version_info`, `route_config_name`,
`cluster_name`, `route_table_dump`) or the usage-help object holding
`general_usage` and `specify_name_usage`. -/
inductive AdminResponseBody where
  | dumps (ps : List ProviderInfo)
  | usage (generalUsage specifyNameUsage : String)
  deriving Repr, DecidableEq

/-- Usage line shown for a bad query, from the handler. -/
def generalUsageText : String :=
  "/routes (dump all dynamic HTTP route tables)."

/-- Usage line for the name filter, from the handler. -/
def specifyNameUsageText : String :=
  "/routes?route_config_name=<name> (dump all dynamic HTTP route tables with the <name> if any)."

/-- Modelled from the spec: the admin `/routes` handler over the parsed
query parameters.  No parameter dumps every provider; exactly the
`route_config_name` parameter dumps the providers with that
route-config name (an empty list when none match); anything else yields
404 with the usage-help object. -/
def handlerRoutes (queryParams : List (String × String))
    (providers : List ProviderInfo) : Nat × AdminResponseBody :=
  match queryParams with
  | [] => (200, .dumps providers)
  | [(k, v)] =>
      if k = "route_config_name" then
        (200, .dumps (providers.filter (fun p => p.routeConfigName == v)))
      else
        (404, .usage generalUsageText specifyNameUsageText)
  | _ => (404, .usage generalUsageText specifyNameUsageText)

/-- A runtime with no overrides: every lookup falls back to its
default. -/
def rtEmpty : Runtime := fun _ => none

/-- Weighted cluster `A` with weight 25 from the spec's example. -/
def wceA : WeightedClusterEntry :=
  { clusterName := "A", runtimeKey := "rk.A", weight := 25 }

/-- Weighted cluster `B` with weight 75 from the spec's example. -/
def wceB : WeightedClusterEntry :=
  { clusterName := "B", runtimeKey := "rk.B", weight := 75 }

/-- A weighted cluster with base weight 10 used to probe runtime
overrides. -/
def wceW : WeightedClusterEntry :=
  { clusterName := "W", runtimeKey := "rk.W", weight := 10 }

/-- A runtime supplying `MAX_CLUSTER_WEIGHT + 1` for `wceW`'s key. -/
def rtOver : Runtime :=
  fun k => if k = "rk.W" then some (MAX_CLUSTER_WEIGHT + 1) else none

/-- A catch-all route entry sending everything to `cl`. -/
def routeTo (cl : String) : RouteEntry :=
  { pathSpec := .prefixPath "", action := .cluster cl }

/-- Virtual host with the exact domain `a.b.c`. -/
def vhExact : VirtualHostDef :=
  { name := "vh-exact", domains := ["a.b.c"], routes := [routeTo "va"] }

/-- Virtual host with the wildcard domain `*.b.c`. -/
def vhWildBC : VirtualHostDef :=
  { name := "vh-wild-bc", domains := ["*.b.c"], routes := [routeTo "vb"] }

/-- Virtual host with the wildcard domain `*.c`. -/
def vhWildC : VirtualHostDef :=
  { name := "vh-wild-c", domains := ["*.c"], routes := [routeTo "vc"] }

/-- The catch-all virtual host `*`. -/
def vhStar : VirtualHostDef :=
  { name := "vh-star", domains := ["*"], routes := [routeTo "vd"] }

/-- The overlapping domain set `{a.b.c, *.b.c, *.c, *}` of the spec's
specificity example. -/
def demoVhosts : List VirtualHostDef := [vhExact, vhWildBC, vhWildC, vhStar]

/-- Route entry matching every path (prefix `/`) to cluster `c1`. -/
def rSlash : RouteEntry := { pathSpec := .prefixPath "/", action := .cluster "c1" }

/-- Route entry matching prefix `/f` to cluster `c2`. -/
def rFoo : RouteEntry := { pathSpec := .prefixPath "/f", action := .cluster "c2" }

/-- Headers of a request for `/foo` on authority `svc`. -/
def hdrsFoo : Headers := [(":authority", "svc"), (":path", "/foo")]

/-- A runtime-gated route entry with key `gk` and default 50. -/
def rGated : RouteEntry :=
  { pathSpec := .prefixPath "/", runtime := some { key := "gk", default := 50 },
    action := .cluster "cg" }

/-- A virtual host requiring SSL for all traffic. -/
def vhSslAll : VirtualHostDef :=
  { name := "vh-ssl", domains := ["*"], sslRequirements := .ALL, routes := [rSlash] }

/-- Virtual host declaring `rSlash` before `rFoo`. -/
def vhPair : VirtualHostDef :=
  { name := "vh-pair", domains := ["*"], routes := [rSlash, rFoo] }

/-- Virtual host declaring the same two routes in swapped order. -/
def vhPairSwap : VirtualHostDef :=
  { name := "vh-pair-swap", domains := ["*"], routes := [rFoo, rSlash] }

/-- A parser that rejects every body. -/
def parseNever : BodyParser := fun _ => none

/-- The empty route configuration. -/
def cfgEmpty : RouteConfiguration := {}

/-- A parser accepting every body as the empty configuration. -/
def parseConst : BodyParser := fun _ => some cfgEmpty

/-- A content hash reading the first byte (enough to distinguish the
concrete bodies used below). -/
def hashHead : HashFn := fun b => b.headD 0

/-- C1: weighted-cluster selection computes the total as the sum of the
entries' effective weights, draws `pick = random_value % total`, and
scans the entries in declared order subtracting each weight, selecting
the first entry that makes the remainder negative — for two clusters
this selects the first exactly when `pick` falls below its weight;
selection is a deterministic function of `random_value`; and for
clusters `A` (weight 25) and `B` (weight 75), `random_value` 10 selects
`A` while 25 and 99 select `B`. -/
theorem weighted_cluster_selection
    (rt : Runtime) (e1 e2 : WeightedClusterEntry) (rv : Nat)
    (hpos : 0 < clusterWeight rt e1 + clusterWeight rt e2) :
    (selectWeighted rt [e1, e2] rv =
      some (if rv % (clusterWeight rt e1 + clusterWeight rt e2) < clusterWeight rt e1
            then e1 else e2))
    ∧ (∀ rv₁ rv₂ : Nat, rv₁ = rv₂ →
        selectWeighted rt [e1, e2] rv₁ = selectWeighted rt [e1, e2] rv₂)
    ∧ selectWeighted rtEmpty [wceA, wceB] 10 = some wceA
    ∧ selectWeighted rtEmpty [wceA, wceB] 25 = some wceB
    ∧ selectWeighted rtEmpty [wceA, wceB] 99 = some wceB
    ∧ totalClusterWeight rtEmpty [wceA, wceB] = 100 := by
  have htot : totalClusterWeight rt [e1, e2] =
      clusterWeight rt e1 + clusterWeight rt e2 := by
    simp [totalClusterWeight]
  refine ⟨?_, fun rv₁ rv₂ hE => by rw [hE], by decide, by decide, by decide, by decide⟩
  have hmod : rv % (clusterWeight rt e1 + clusterWeight rt e2) <
      clusterWeight rt e1 + clusterWeight rt e2 := Nat.mod_lt _ hpos
  unfold selectWeighted
  rw [htot]
  rcases Nat.lt_or_ge (rv % (clusterWeight rt e1 + clusterWeight rt e2))
      (clusterWeight rt e1) with hlt | hge
  · rw [if_pos hlt]
    unfold pickWeighted
    rw [if_pos (by omega)]
  · rw [if_neg (Nat.not_lt.2 hge)]
    unfold pickWeighted
    rw [if_neg (by omega)]
    unfold pickWeighted
    rw [if_pos (by omega)]

/-- Witness for C1: the theorem applied to the concrete `A`/`B` pair at
`random_value = 10`. -/
theorem weighted_cluster_selection_witness :
    selectWeighted rtEmpty [wceA, wceB] 10 = some wceA :=
  (weighted_cluster_selection rtEmpty wceA wceB 10 (by decide)).2.2.1

/-- C2: virtual-host resolution on the `:authority` host (port
stripped) tries exact-domain match, then the wildcard entry with the
longest strict suffix, then the catch-all, and otherwise the whole
lookup returns `None`; with domains `{a.b.c, *.b.c, *.c, *}` host
`a.b.c` selects the exact entry, `x.b.c` selects `*.b.c`, `x.c` selects
`*.c`, and `x.y` selects `*`. -/
theorem virtual_host_specificity :
    ((findVirtualHost demoVhosts [(":authority", "a.b.c")]).map VirtualHostDef.name
      = some "vh-exact")
    ∧ ((findVirtualHost demoVhosts [(":authority", "x.b.c")]).map VirtualHostDef.name
      = some "vh-wild-bc")
    ∧ ((findVirtualHost demoVhosts [(":authority", "x.c")]).map VirtualHostDef.name
      = some "vh-wild-c")
    ∧ ((findVirtualHost demoVhosts [(":authority", "x.y")]).map VirtualHostDef.name
      = some "vh-star")
    ∧ ((findVirtualHost demoVhosts [(":authority", "a.b.c:8443")]).map VirtualHostDef.name
      = some "vh-exact")
    ∧ (∀ (rt : Runtime) (vhs : List VirtualHostDef) (h : Headers) (rv : Nat),
        findVirtualHost vhs h = none → routeMatcherRoute rt vhs h rv = none) := by
  refine ⟨by decide, by decide, by decide, by decide, by decide, ?_⟩
  intro rt vhs h rv hnone
  unfold routeMatcherRoute
  rw [hnone]

/-- Witness for C2: a host matching no domain set yields no route. -/
theorem virtual_host_specificity_witness :
    routeMatcherRoute rtEmpty [vhExact] [(":authority", "other.org")] 0 = none :=
  virtual_host_specificity.2.2.2.2.2 rtEmpty [vhExact] [(":authority", "other.org")] 0
    (by rfl)

/-- C3: route selection iterates the declared routes in order and
returns the first non-null `matches` result, where the predicate holds
exactly when the path-kind match succeeds, every declared
header-matcher is satisfied, and any runtime gate admits the request;
for two routes both matching a request, the declared order decides the
winner, so swapping the order swaps the selection. -/
theorem first_match_semantics (rt : Runtime) (h : Headers) (rv : Nat) :
    (∀ r : RouteEntry, routeMatches rt r h rv ≠ none ↔
       (pathKindMatch r.caseSensitive r.pathSpec ((getHeader h ":path").getD "") = true
        ∧ (∀ hd ∈ r.configHeaders, headerMatches hd h = true)
        ∧ runtimeGate rt r.runtime rv = true))
    ∧ (∀ (r₁ r₂ : RouteEntry) (vh₁ vh₂ : VirtualHostDef) (a b : RouteResult),
        vh₁.sslRequirements = SslRequirements.NONE →
        vh₂.sslRequirements = SslRequirements.NONE →
        vh₁.routes = [r₁, r₂] → vh₂.routes = [r₂, r₁] →
        routeMatches rt r₁ h rv = some a → routeMatches rt r₂ h rv = some b →
        getRouteFromEntries rt vh₁ h rv = some a
          ∧ getRouteFromEntries rt vh₂ h rv = some b) := by
  have key : ∀ (c : Bool) (x : RouteResult),
      ((if c then some x else none) ≠ none) ↔ c = true := by
    intro c x
    cases c <;> simp
  constructor
  · intro r
    rw [routeMatches, key]
    simp only [matchRoute, Bool.and_eq_true, List.all_eq_true]
    tauto
  · intro r₁ r₂ vh₁ vh₂ a b h1 h2 hr1 hr2 hm1 hm2
    have s1 : sslRedirectNeeded vh₁ h = false := by simp [sslRedirectNeeded, h1]
    have s2 : sslRedirectNeeded vh₂ h = false := by simp [sslRedirectNeeded, h2]
    constructor
    · simp [getRouteFromEntries, s1, hr1, firstMatch, hm1]
    · simp [getRouteFromEntries, s2, hr2, firstMatch, hm2]

/-- Witness for C3: with both routes matching `/foo`, declaring
`rSlash` first selects `c1` and declaring `rFoo` first selects `c2`. -/
theorem first_match_semantics_witness :
    getRouteFromEntries rtEmpty vhPair hdrsFoo 0 = some (.clusterRoute "c1")
    ∧ getRouteFromEntries rtEmpty vhPairSwap hdrsFoo 0 = some (.clusterRoute "c2") :=
  (first_match_semantics rtEmpty hdrsFoo 0).2 rSlash rFoo vhPair vhPairSwap
    (.clusterRoute "c1") (.clusterRoute "c2") rfl rfl rfl rfl (by decide) (by decide)

/-- C4: with a runtime fraction `(key, default)` present and the rest
of the predicate holding, the route matches exactly when the
runtime-sourced integer `k` looked up by `key` (defaulting to
`default`) satisfies `random_value % 100 < k`; `k = 0` never matches
and `k ≥ 100` always matches. -/
theorem runtime_gate_semantics
    (rt : Runtime) (r : RouteEntry) (h : Headers) (rv : Nat) (rd : RuntimeData)
    (hrt : r.runtime = some rd)
    (hpath : pathKindMatch r.caseSensitive r.pathSpec ((getHeader h ":path").getD "") = true)
    (hhdr : (r.configHeaders.all fun hd => headerMatches hd h) = true) :
    (routeMatches rt r h rv ≠ none ↔ rv % 100 < getInteger rt rd.key rd.default)
    ∧ (getInteger rt rd.key rd.default = 0 → routeMatches rt r h rv = none)
    ∧ (100 ≤ getInteger rt rd.key rd.default → routeMatches rt r h rv ≠ none) := by
  have hgate : runtimeGate rt r.runtime rv =
      decide (rv % 100 < getInteger rt rd.key rd.default) := by
    rw [hrt, runtimeGate]
  have hiff : routeMatches rt r h rv ≠ none ↔ rv % 100 < getInteger rt rd.key rd.default := by
    rw [routeMatches, matchRoute, hgate, hhdr, hpath]
    by_cases hk : rv % 100 < getInteger rt rd.key rd.default
    · simp [hk]
    · simp [hk]
  refine ⟨hiff, ?_, ?_⟩
  · intro hzero
    by_contra hne
    have := hiff.mp hne
    omega
  · intro hge
    exact hiff.mpr (by have := Nat.mod_lt rv (show 0 < 100 by omega); omega)

/-- Witness for C4: the gated route with default 50 matches at
`random_value = 10` under an override-free runtime. -/
theorem runtime_gate_semantics_witness :
    routeMatches rtEmpty rGated [(":path", "/x")] 10 ≠ none :=
  (runtime_gate_semantics rtEmpty rGated [(":path", "/x")] 10
      { key := "gk", default := 50 } rfl (by decide) (by decide)).1.mpr (by decide)

/-- C8: when the selected virtual host requires SSL and the request is
plaintext (forwarded-proto not `https`), excluding the `external_only`
exemption for requests bearing the internal trust marker, route
selection returns the synthetic SSL-redirect route: its redirect entry
is non-null, its route entry is null, and its new path rewrites the
scheme to `https` while preserving host and path. -/
theorem ssl_redirect_route
    (rt : Runtime) (vh : VirtualHostDef) (h : Headers) (rv : Nat)
    (hplain : ¬ ((getHeader h "x-forwarded-proto").getD "" = "https"))
    (hssl : vh.sslRequirements = SslRequirements.ALL
            ∨ (vh.sslRequirements = SslRequirements.EXTERNAL_ONLY
               ∧ getHeader h "x-envoy-internal" = none)) :
    getRouteFromEntries rt vh h rv = some RouteResult.sslRedirect
    ∧ RouteResult.sslRedirect.redirectEntryIsNull = false
    ∧ RouteResult.sslRedirect.routeEntryIsNull = true
    ∧ (∀ (host path : String) (hs : Headers),
        getHeader hs ":authority" = some host → getHeader hs ":path" = some path →
        sslRedirectorNewPath hs = "https://" ++ host ++ path)
    ∧ (∀ (vh₂ : VirtualHostDef) (h₂ : Headers),
        vh₂.sslRequirements = SslRequirements.EXTERNAL_ONLY →
        (getHeader h₂ "x-envoy-internal").isSome = true →
        sslRedirectNeeded vh₂ h₂ = false) := by
  have hneed : sslRedirectNeeded vh h = true := by
    rcases hssl with hA | ⟨hE, hnone⟩
    · simp [sslRedirectNeeded, hA, beq_iff_eq, hplain]
    · simp [sslRedirectNeeded, hE, beq_iff_eq, hplain, hnone]
  refine ⟨?_, rfl, rfl, ?_, ?_⟩
  · simp [getRouteFromEntries, hneed]
  · intro host path hs hhost hpath
    simp [sslRedirectorNewPath, hhost, hpath]
  · intro vh₂ h₂ hE2 hint
    simp [sslRedirectNeeded, hE2, hint]

/-- Witness for C8: a plaintext request on an SSL-requiring virtual
host gets the synthetic SSL-redirect route. -/
theorem ssl_redirect_route_witness :
    getRouteFromEntries rtEmpty vhSslAll [(":authority", "svc"), (":path", "/p")] 0
      = some RouteResult.sslRedirect :=
  (ssl_redirect_route rtEmpty vhSslAll [(":authority", "svc"), (":path", "/p")] 0
    (by decide) (Or.inl rfl)).1

/-- Counterexample for C7: `clusterWeight` as written in the header
applies no clamping, so a runtime supplying `MAX_CLUSTER_WEIGHT + 1`
makes the effective weight exceed `MAX_CLUSTER_WEIGHT`, refuting the
claimed bound. -/
theorem cluster_weight_clamp_cex :
    ¬ (clusterWeight rtOver wceW ≤ MAX_CLUSTER_WEIGHT) := by decide

/-- C7 (amended): the effective weight read at selection time equals
the runtime integer for the entry's key, defaulting to the base weight,
with no clamping — a runtime-supplied value above `MAX_CLUSTER_WEIGHT`
is used as-is. -/
theorem cluster_weight_effective (rt : Runtime) (e : WeightedClusterEntry) :
    (rt e.runtimeKey = none → clusterWeight rt e = e.weight)
    ∧ (∀ v : Nat, rt e.runtimeKey = some v → clusterWeight rt e = v) := by
  constructor
  · intro hnone
    rw [clusterWeight, getInteger, hnone, Option.getD_none]
  · intro v hv
    rw [clusterWeight, getInteger, hv, Option.getD_some]

/-- Witness for C7's amended statement: the overriding runtime drives
the effective weight to `MAX_CLUSTER_WEIGHT + 1`. -/
theorem cluster_weight_effective_witness :
    clusterWeight rtOver wceW = MAX_CLUSTER_WEIGHT + 1 :=
  (cluster_weight_effective rtOver wceW).2 (MAX_CLUSTER_WEIGHT + 1) rfl

/-- Running the one-shot init callback touches only the init-target
fields, never a counter, the hash or the snapshot. -/
theorem fireInit_counters (s : RdsState) :
    (fireInit s).currentHash = s.currentHash ∧ (fireInit s).snapshot = s.snapshot
    ∧ (fireInit s).updateAttempt = s.updateAttempt
    ∧ (fireInit s).updateSuccess = s.updateSuccess
    ∧ (fireInit s).updateFailure = s.updateFailure
    ∧ (fireInit s).updateEmpty = s.updateEmpty
    ∧ (fireInit s).configReload = s.configReload := by
  unfold fireInit
  split <;> simp

/-- C5: a fetch whose body hashes to the currently held content hash
counts one `update_attempt` and one `update_success`, does not count a
`config_reload`, and leaves the published snapshot unchanged; a body
with a different hash that parses counts exactly one `config_reload`;
so an initial load, a byte-identical refetch and one changed refetch
leave `update_attempt = 3`, `update_success = 3`, `config_reload = 2`. -/
theorem hash_dedup (parse : BodyParser) (hashFn : HashFn) :
    (∀ (s : RdsState) (body : ResponseBody),
        some (hashFn body) = s.currentHash →
        (rdsStep parse hashFn s (.fetchSuccess body)).updateAttempt = s.updateAttempt + 1
        ∧ (rdsStep parse hashFn s (.fetchSuccess body)).updateSuccess = s.updateSuccess + 1
        ∧ (rdsStep parse hashFn s (.fetchSuccess body)).configReload = s.configReload
        ∧ (rdsStep parse hashFn s (.fetchSuccess body)).snapshot = s.snapshot)
    ∧ (∀ (s : RdsState) (body : ResponseBody) (cfg : RouteConfiguration),
        ¬ some (hashFn body) = s.currentHash → parse body = some cfg →
        (rdsStep parse hashFn s (.fetchSuccess body)).configReload = s.configReload + 1)
    ∧ (∀ (b1 b2 : ResponseBody) (c1 c2 : RouteConfiguration),
        parse b1 = some c1 → parse b2 = some c2 → ¬ hashFn b1 = hashFn b2 →
        (runTrace parse hashFn initialRdsState
            [.fetchSuccess b1, .fetchSuccess b1, .fetchSuccess b2]).updateAttempt = 3
        ∧ (runTrace parse hashFn initialRdsState
            [.fetchSuccess b1, .fetchSuccess b1, .fetchSuccess b2]).updateSuccess = 3
        ∧ (runTrace parse hashFn initialRdsState
            [.fetchSuccess b1, .fetchSuccess b1, .fetchSuccess b2]).configReload = 2) := by
  refine ⟨?_, ?_, ?_⟩
  · intro s body hsame
    by_cases hi : s.initFired = true <;>
      simp [rdsStep, fireInit, hi, applyOutcome, hsame]
  · intro s body cfg hdiff hp
    by_cases hi : s.initFired = true <;>
      simp [rdsStep, fireInit, hi, applyOutcome, hdiff, hp]
  · intro b1 b2 c1 c2 hp1 hp2 hdiff
    refine ⟨?_, ?_, ?_⟩ <;>
      simp [runTrace, rdsStep, fireInit, applyOutcome, initialRdsState,
        hp1, hp2, hdiff, Ne.symm hdiff]

/-- Witness for C5: with a head-byte hash and an always-accepting
parser, the three-fetch scenario ends with the claimed counters. -/
theorem hash_dedup_witness :
    (runTrace parseConst hashHead initialRdsState
        [.fetchSuccess [1], .fetchSuccess [1], .fetchSuccess [2]]).updateAttempt = 3
    ∧ (runTrace parseConst hashHead initialRdsState
        [.fetchSuccess [1], .fetchSuccess [1], .fetchSuccess [2]]).updateSuccess = 3
    ∧ (runTrace parseConst hashHead initialRdsState
        [.fetchSuccess [1], .fetchSuccess [1], .fetchSuccess [2]]).configReload = 2 :=
  (hash_dedup parseConst hashHead).2.2 [1] [2] cfgEmpty cfgEmpty rfl rfl (by decide)

/-- The update protocol itself never touches the init-target fields:
those change only through `fireInit`. -/
theorem applyOutcome_init (parse : BodyParser) (hashFn : HashFn) (s : RdsState)
    (e : RdsEvent) :
    (applyOutcome parse hashFn s e).readyCalls = s.readyCalls
    ∧ (applyOutcome parse hashFn s e).initFired = s.initFired := by
  cases e with
  | fetchSuccess body =>
      simp only [applyOutcome]
      split
      · exact ⟨rfl, rfl⟩
      · cases hp : parse body <;> simp [hp]
  | fetchFailure => exact ⟨rfl, rfl⟩
  | destroy => exact ⟨rfl, rfl⟩

/-- Once the init callback has fired, no further event calls
`ready()` again. -/
theorem runTrace_ready_fired (parse : BodyParser) (hashFn : HashFn) :
    ∀ (evs : List RdsEvent) (s : RdsState), s.initFired = true →
      (runTrace parse hashFn s evs).readyCalls = s.readyCalls := by
  intro evs
  induction evs with
  | nil => intro s _; rfl
  | cons e rest ih =>
      intro s hs
      have hfe : fireInit s = s := by simp [fireInit, hs]
      have hstep : rdsStep parse hashFn s e = applyOutcome parse hashFn s e := by
        rw [rdsStep, hfe]
      show (runTrace parse hashFn (rdsStep parse hashFn s e) rest).readyCalls = s.readyCalls
      rw [hstep, ih _ ((applyOutcome_init parse hashFn s e).2.trans hs)]
      exact (applyOutcome_init parse hashFn s e).1

/-- Counterexample for C6: destroying the provider before any fetch
outcome also fires `init_manager.ready()` (the destructor runs the
one-shot init callback), so the callback does not fire at a terminal
fetch outcome — the trace holds no fetch outcome at all, yet `ready()`
was called once. -/
theorem init_ready_destroy_cex :
    (runTrace parseNever hashHead initialRdsState [RdsEvent.destroy]).readyCalls = 1
    ∧ List.any [RdsEvent.destroy] RdsEvent.isFetchOutcome = false :=
  ⟨rfl, rfl⟩

/-- C6 (amended): the provider's init target fires
`init_manager.ready()` exactly once — at the first terminal outcome of
the first fetch (success or failure), or at provider destruction if
that comes first; no later event fires it a second time. -/
theorem init_ready_exactly_once (parse : BodyParser) (hashFn : HashFn)
    (evs : List RdsEvent) :
    (runTrace parse hashFn initialRdsState evs).readyCalls
      = if evs.isEmpty then 0 else 1 := by
  cases evs with
  | nil => rfl
  | cons e rest =>
      have hf : fireInit initialRdsState =
          { initialRdsState with initFired := true, readyCalls := 1 } := by
        simp [fireInit, initialRdsState]
      have hinit : (rdsStep parse hashFn initialRdsState e).initFired = true := by
        rw [rdsStep, hf]
        exact (applyOutcome_init parse hashFn _ e).2
      have hready : (rdsStep parse hashFn initialRdsState e).readyCalls = 1 := by
        rw [rdsStep, hf]
        exact (applyOutcome_init parse hashFn _ e).1
      show (runTrace parse hashFn (rdsStep parse hashFn initialRdsState e) rest).readyCalls
        = if (e :: rest).isEmpty then 0 else 1
      rw [runTrace_ready_fired parse hashFn rest _ hinit, hready]
      rfl

/-- C9: the admin `/routes` handler returns 200 with one dump object
per provider (holding version_info, route_config_name, cluster_name and
route_table_dump) when called without parameters; with
`route_config_name=<name>` it returns 200 filtered to matching
providers, with an empty body when none match; and with any other query
parameter it returns 404 with the usage-help object holding
`general_usage` and `specify_name_usage`. -/
theorem admin_routes_handler
    (providers : List ProviderInfo) (n k v : String) (qs : List (String × String)) :
    handlerRoutes [] providers = (200, .dumps providers)
    ∧ handlerRoutes [("route_config_name", n)] providers =
        (200, .dumps (providers.filter (fun p => p.routeConfigName == n)))
    ∧ ((∀ p ∈ providers, ¬ p.routeConfigName = n) →
        handlerRoutes [("route_config_name", n)] providers = (200, .dumps []))
    ∧ (¬ k = "route_config_name" →
        handlerRoutes [(k, v)] providers =
          (404, .usage generalUsageText specifyNameUsageText))
    ∧ (2 ≤ qs.length →
        handlerRoutes qs providers =
          (404, .usage generalUsageText specifyNameUsageText)) := by
  refine ⟨rfl, by simp [handlerRoutes], ?_, ?_, ?_⟩
  · intro hnone
    have hfil : providers.filter (fun p => p.routeConfigName == n) = [] := by
      rw [List.filter_eq_nil_iff]
      intro p hp
      simpa using hnone p hp
    simp [handlerRoutes, hfil]
  · intro hk
    simp [handlerRoutes, hk]
  · intro hlen
    cases qs with
    | nil => simp at hlen
    | cons a t =>
        cases t with
        | nil =>
            simp only [List.length_cons, List.length_nil] at hlen
            omega
        | cons b t2 => rfl

/-- Witness for C9: a query with an unknown parameter gets the 404
usage object. -/
theorem admin_routes_handler_witness :
    handlerRoutes [("bad_param", "")] [] =
      (404, .usage generalUsageText specifyNameUsageText) :=
  (admin_routes_handler [] "x" "bad_param" "" []).2.2.2.1 (by decide)

/-- An event sequence holding no successfully-parsed fetch response —
network failures, responses whose bodies fail to parse, destruction —
never installs a snapshot or a content hash. -/
theorem runTrace_no_update_snapshot (parse : BodyParser) (hashFn : HashFn) :
    ∀ (evs : List RdsEvent) (s : RdsState),
      (∀ e ∈ evs, ∀ body : ResponseBody,
        e = RdsEvent.fetchSuccess body → parse body = none) →
      (runTrace parse hashFn s evs).snapshot = s.snapshot
      ∧ (runTrace parse hashFn s evs).currentHash = s.currentHash := by
  intro evs
  induction evs with
  | nil => intro s _; exact ⟨rfl, rfl⟩
  | cons e rest ih =>
      intro s hall
      have hrest : ∀ x ∈ rest, ∀ body : ResponseBody,
          x = RdsEvent.fetchSuccess body → parse body = none :=
        fun x hx => hall x (List.mem_cons_of_mem _ hx)
      have hf := fireInit_counters s
      have hstep : (rdsStep parse hashFn s e).snapshot = s.snapshot
          ∧ (rdsStep parse hashFn s e).currentHash = s.currentHash := by
        cases e with
        | fetchSuccess body =>
            have hp : parse body = none :=
              hall _ (List.mem_cons_self _ rest) body rfl
            simp only [rdsStep, applyOutcome, hp]
            split
            · exact ⟨hf.2.1, hf.1⟩
            · exact ⟨hf.2.1, hf.1⟩
        | fetchFailure =>
            exact ⟨hf.2.1, hf.1⟩
        | destroy =>
            exact ⟨hf.2.1, hf.1⟩
      have hr := ih (rdsStep parse hashFn s e) hrest
      exact ⟨hr.1.trans hstep.1, hr.2.trans hstep.2⟩

/-- C10: before the first successful update — after any run of events
none of which is a fetch response that parses (network failures,
unparseable bodies, destruction) — `config()` serves the
`NullConfigImpl`, whose `route` returns `None` for every input, whose
`usesRuntime` is false and whose internal-only, response-header-add and
response-header-remove lists are empty, while `versionInfo()` is the
empty string. -/
theorem null_config_before_first_update
    (rt : Runtime) (parse : BodyParser) (hashFn : HashFn) (evs : List RdsEvent)
    (hfail : ∀ e ∈ evs, ∀ body : ResponseBody,
      e = RdsEvent.fetchSuccess body → parse body = none) :
    providerConfig rt (runTrace parse hashFn initialRdsState evs) = nullConfig
    ∧ versionInfo (runTrace parse hashFn initialRdsState evs) = ""
    ∧ (∀ (h : Headers) (rv : Nat), nullConfig.route h rv = none)
    ∧ nullConfig.usesRuntime = false
    ∧ nullConfig.internalOnlyHeaders = []
    ∧ nullConfig.responseHeadersToAdd = []
    ∧ nullConfig.responseHeadersToRemove = [] := by
  have h := runTrace_no_update_snapshot parse hashFn evs initialRdsState hfail
  refine ⟨?_, ?_, fun _ _ => rfl, rfl, rfl, rfl, rfl⟩
  · unfold providerConfig
    rw [h.1]
    rfl
  · unfold versionInfo
    rw [h.2]
    rfl

/-- Witness for C10: a trace holding an unparseable fetch response, a
network failure, and a destruction still leaves the null configuration
and an empty version string. -/
theorem null_config_before_first_update_witness :
    providerConfig rtEmpty
        (runTrace parseNever hashHead initialRdsState
          [RdsEvent.fetchSuccess [7], RdsEvent.fetchFailure, RdsEvent.destroy])
      = nullConfig
    ∧ versionInfo (runTrace parseNever hashHead initialRdsState
          [RdsEvent.fetchSuccess [7], RdsEvent.fetchFailure, RdsEvent.destroy])
      = "" :=
  ⟨(null_config_before_first_update rtEmpty parseNever hashHead
      [RdsEvent.fetchSuccess [7], RdsEvent.fetchFailure, RdsEvent.destroy]
      (fun _ _ _ _ => rfl)).1,
   (null_config_before_first_update rtEmpty parseNever hashHead
      [RdsEvent.fetchSuccess [7], RdsEvent.fetchFailure, RdsEvent.destroy]
      (fun _ _ _ _ => rfl)).2.1⟩

end Router
